import Mathlib

/-!
Verification of the RagChatMilvus chat server against its specification.

The development shallowly embeds the server's request handlers and services:

* `Routes` — the Express handlers of `server/routes.ts` (POST `/api/messages`,
  PATCH `/api/messages/:id/vector-save`, DELETE `/api/clear-database`), modelled
  as pure functions over the in-memory chat list, the vector store, and an
  environment record that supplies the outcomes of the external calls
  (embedding, similarity search, generation, vector upsert).  `none` for an
  outcome models the corresponding `await` throwing.
* `MemoryEval` — `evaluateMemoryValue` and `fallbackEvaluation` of
  `server/services/memory-evaluator.ts`, with the model reply abstracted to
  its JSON-parse outcome, and the regexes (which are alternations of literal
  substrings plus one `^.{1,20}$` test) embedded as substring checks.
* `Milvus` — `cosineSimilarity` and the in-memory fallback branch of
  `searchSimilar` of `server/services/milvus.ts`, over real-valued vectors.
* `Pinecone` — `PineconeService.connect` with its retry/backoff loop, with an
  oracle giving the success of each connection attempt.

JavaScript numbers are modelled as rationals where the code only moves them
around and as reals where it computes (cosine similarity); string lengths are
modelled as character counts and `toLowerCase` as ASCII lowercasing; dates and
uuids are opaque data supplied by the environment.
-/

namespace Routes

/-- Role of a chat message: the `role` field of `ChatMessage`. -/
inductive Role where
  | user : Role
  | assistant : Role
deriving DecidableEq, Repr

/-- The `ChatMessage` record of the vector-service modules: id, content, role,
timestamp, sources, and the optional `savedToVector` flag (`none` when the
field is absent, as on user messages). -/
structure ChatMessage where
  id : String
  content : String
  role : Role
  timestamp : Nat
  sources : List String
  savedToVector : Option Bool
deriving DecidableEq, Repr

/-- The `VectorResponse` record: a stored query/response pair with its
embedding, as inserted into the vector store. -/
structure VectorResponse where
  id : String
  query : String
  response : String
  embedding : List ℚ
  sources : List String
  timestamp : Nat
deriving DecidableEq, Repr

/-- One result of `searchSimilar`, as consumed by the handlers. -/
structure SimilarResult where
  id : String
  query : String
  response : String
  sources : List String
  similarity : ℚ
  timestamp : Nat
deriving DecidableEq, Repr

/-- The value of `generateChatResponse`: generated content plus sources. -/
structure GenResponse where
  content : String
  sources : List String
deriving DecidableEq, Repr

/-- The settings the POST handler reads, after the in-line parsing:
`temperature` is the `parseFloat` result (`none` for NaN), `maxTokens` the
`parseInt` result (`none` for NaN); `model` and `systemPrompt` are the raw
optional strings. -/
structure SettingsView where
  model : Option String
  temperature : Option ℚ
  maxTokens : Option Int
  systemPrompt : Option String
deriving DecidableEq, Repr

/-- An external call a handler performs, recorded in order. -/
inductive ExtCall where
  | embed : String → ExtCall
  | search : ExtCall
  | generate : ExtCall
  | insert : String → String → ExtCall
  | deleteVec : String → ExtCall
deriving DecidableEq, Repr

/-- The `content` field of a request body: a string, absent/falsy (undefined,
null, empty-ish non-strings), or some truthy non-string value. -/
inductive ReqContent where
  | absent : ReqContent
  | nonStringTruthy : ReqContent
  | str : String → ReqContent
deriving DecidableEq, Repr

/-- Truthiness test on an optional string: `!x` holds for `undefined` and
for the empty string. -/
def falsyStr : Option String → Bool
  | none => true
  | some s => s == ""

/-- Truthiness test on the parsed `maxTokens`: `!x` holds for NaN and `0`. -/
def falsyInt : Option Int → Bool
  | none => true
  | some n => n == 0

/-- Environment of one POST `/api/messages` execution: ids and time stamps the
handler mints, and the outcome of each external call (`none` = the call
throws).  `ffEmbed`/`ffInsertOk` are the embedding and upsert of the
fire-and-forget save block. -/
structure PostEnv where
  uidUser : String
  uidAssistant : String
  uidVector : String
  now : Nat
  embedOutcome : Option (List ℚ)
  searchOutcome : Option (List SimilarResult)
  settings : SettingsView
  gen : Option GenResponse
  ffEmbed : Option (List ℚ)
  ffInsertOk : Bool
deriving Repr

/-- Body of a POST `/api/messages` response. -/
inductive PostBody where
  | err : String → PostBody
  | ok : ChatMessage → ChatMessage → List String → PostBody
deriving DecidableEq, Repr

/-- Result of one POST `/api/messages` execution: HTTP status, JSON body, the
chat history and vector store after the handler, and the external calls made. -/
structure PostResult where
  status : Nat
  body : PostBody
  chat : List ChatMessage
  store : List VectorResponse
  calls : List ExtCall
deriving DecidableEq, Repr

/-- The POST `/api/messages` handler of `server/routes.ts` (lines 34-143).
Validation, the user-message push, the try/catch around embed+search (failures
fall back to no previous conversations), the four settings checks, generation,
the assistant-message push, and the fire-and-forget vector save whose errors
are caught and do not touch the response. -/
def postMessagesHandler (content : ReqContent) (saveToVector : Bool)
    (env : PostEnv) (chat : List ChatMessage) (store : List VectorResponse) :
    PostResult :=
  match content with
  | .absent => ⟨400, .err "Content is required", chat, store, []⟩
  | .nonStringTruthy => ⟨400, .err "Content is required", chat, store, []⟩
  | .str s =>
    if s = "" then ⟨400, .err "Content is required", chat, store, []⟩ else
    let userMessage : ChatMessage := ⟨env.uidUser, s, .user, env.now, [], none⟩
    let chat1 := chat ++ [userMessage]
    let searchStep : List SimilarResult × List ExtCall :=
      match env.embedOutcome with
      | none => ([], [.embed s])
      | some _ =>
        match env.searchOutcome with
        | none => ([], [.embed s, .search])
        | some rs => (rs, [.embed s, .search])
    let calls1 := searchStep.2
    if falsyStr env.settings.model then
      ⟨400, .err "Model not configured. Please set model in settings.", chat1, store, calls1⟩
    else if env.settings.temperature.isNone then
      ⟨400, .err "Temperature not configured. Please set temperature in settings.", chat1, store, calls1⟩
    else if falsyInt env.settings.maxTokens then
      ⟨400, .err "Max tokens not configured. Please set maxTokens in settings.", chat1, store, calls1⟩
    else if falsyStr env.settings.systemPrompt then
      ⟨400, .err "System prompt not configured. Please set system prompt in settings.", chat1, store, calls1⟩
    else
      match env.gen with
      | none => ⟨500, .err "Failed to process message", chat1, store, calls1 ++ [.generate]⟩
      | some aiResponse =>
        let assistantMessage : ChatMessage :=
          ⟨env.uidAssistant, aiResponse.content, .assistant, env.now,
            aiResponse.sources, some saveToVector⟩
        let chat2 := chat1 ++ [assistantMessage]
        let ff : List VectorResponse × List ExtCall :=
          if saveToVector then
            match env.ffEmbed with
            | none => (store, [.embed aiResponse.content])
            | some e =>
              if env.ffInsertOk then
                (store ++ [⟨env.uidVector, s, aiResponse.content, e, aiResponse.sources, env.now⟩],
                  [.embed aiResponse.content, .insert s aiResponse.content])
              else (store, [.embed aiResponse.content, .insert s aiResponse.content])
          else (store, [])
        ⟨200, .ok userMessage assistantMessage aiResponse.sources, chat2, ff.1,
          calls1 ++ [.generate] ++ ff.2⟩

/-- Mutation `message.savedToVector = save` through the reference returned by
`chatMessages.find`: the first message with the given id gets the flag. -/
def setSavedFlag (idv : String) (save : Bool) : List ChatMessage → List ChatMessage
  | [] => []
  | m :: rest =>
    if m.id = idv then ⟨m.id, m.content, m.role, m.timestamp, m.sources, some save⟩ :: rest
    else m :: setSavedFlag idv save rest

/-- Environment of one PATCH `/api/messages/:id/vector-save` execution. -/
structure PatchEnv where
  uidVector : String
  now : Nat
  embedOutcome : Option (List ℚ)
  insertOk : Bool
  searchOutcome : Option (List SimilarResult)
deriving Repr

/-- Body of a PATCH response. -/
inductive PatchBody where
  | notFound : PatchBody
  | err : String → PatchBody
  | message : ChatMessage → PatchBody
deriving DecidableEq, Repr

/-- Result of one PATCH execution. -/
structure PatchResult where
  status : Nat
  body : PatchBody
  chat : List ChatMessage
  calls : List ExtCall
deriving DecidableEq, Repr

/-- The PATCH `/api/messages/:id/vector-save` handler of `server/routes.ts`
(lines 146-211).  For an assistant message the flag is set first; with
`saveToVector` true, the immediately preceding message, when it is a user
message, supplies the query of the single upsert (embed errors propagate to
the 500 catch); with `saveToVector` false the handler searches for the stored
vector and deletes the exact match, all errors caught. -/
def patchVectorSaveHandler (idv : String) (saveToVector : Bool) (env : PatchEnv)
    (chat : List ChatMessage) : PatchResult :=
  match chat.find? (fun m => m.id == idv) with
  | none => ⟨404, .notFound, chat, []⟩
  | some m =>
    if m.role = .assistant then
      let updated : ChatMessage :=
        ⟨m.id, m.content, m.role, m.timestamp, m.sources, some saveToVector⟩
      let chat1 := setSavedFlag idv saveToVector chat
      let i := chat1.findIdx (fun x => x.id == idv)
      let prev : Option ChatMessage := if 0 < i then chat1[i - 1]? else none
      if saveToVector then
        match prev with
        | some u =>
          if u.role = .user then
            match env.embedOutcome with
            | none => ⟨500, .err "Failed to update message", chat1, [.embed m.content]⟩
            | some _ =>
              if env.insertOk then
                ⟨200, .message updated, chat1, [.embed m.content, .insert u.content m.content]⟩
              else
                ⟨500, .err "Failed to update message", chat1,
                  [.embed m.content, .insert u.content m.content]⟩
          else ⟨200, .message updated, chat1, []⟩
        | none => ⟨200, .message updated, chat1, []⟩
      else
        let calls : List ExtCall :=
          match prev with
          | some u =>
            if u.role = .user then
              match env.embedOutcome with
              | none => [.embed m.content]
              | some _ =>
                match env.searchOutcome with
                | none => [.embed m.content, .search]
                | some results =>
                  match results.find? (fun r =>
                      r.response.trim == m.content.trim && r.query.trim == u.content.trim) with
                  | some exactMatch => [.embed m.content, .search, .deleteVec exactMatch.id]
                  | none => [.embed m.content, .search]
            else []
          | none => []
        ⟨200, .message updated, chat1, calls⟩
    else ⟨200, .message m, chat, []⟩

/-- The upsert calls among a handler's external calls. -/
def insertCalls (calls : List ExtCall) : List ExtCall :=
  calls.filter fun c =>
    match c with
    | .insert _ _ => true
    | _ => false

/-- Result of the DELETE `/api/clear-database` handler. -/
structure ClearResult where
  status : Nat
  message : String
  chat : List ChatMessage
  store : List VectorResponse
deriving DecidableEq, Repr

/-- The DELETE `/api/clear-database` handler of `server/routes.ts` (lines
274-284): it reassigns `chatMessages = []` and answers 200; it makes no call
to the vector service, so the stored vector records are untouched. -/
def clearDatabaseHandler (chat : List ChatMessage) (store : List VectorResponse) :
    ClearResult :=
  ⟨200, "Chat history cleared successfully", [], store⟩

end Routes

namespace MemoryEval

/-- A JavaScript number as it can reach a `MemoryDecision`: a finite value
(JSON numbers, modelled as rationals) or NaN, which `Math.max`/`Math.min`
produce when an argument does not coerce to a number. -/
inductive JsNumber where
  | num : ℚ → JsNumber
  | nan : JsNumber
deriving DecidableEq, Repr

/-- A JSON value a field of the parsed model reply can hold: missing
(`absent`, read as `undefined`), `null`, a boolean, a number, a string, or a
non-null object.  A string carries, next to its characters, its JavaScript
`ToNumber` value (`none` when it does not parse as a number), since `Math.min`
and `Math.max` coerce their arguments; embedding the full `ToNumber` string
grammar is beside the claims, and the concrete inputs below use the true
coercion of their strings.  Arrays are omitted: their coercion depends on the
elements, and `objv` already exhibits the truthy-but-NaN behaviour. -/
inductive JsonValue where
  | absent : JsonValue
  | nullv : JsonValue
  | boolv : Bool → JsonValue
  | numv : ℚ → JsonValue
  | strv : String → Option ℚ → JsonValue
  | objv : JsonValue
deriving DecidableEq, Repr

/-- JavaScript truthiness of a `JsonValue`: `undefined`, `null`, `false`, `0`
and the empty string are falsy, everything else truthy. -/
def truthy : JsonValue → Bool
  | .absent => false
  | .nullv => false
  | .boolv b => b
  | .numv q => !decide (q = 0)
  | .strv s _ => !(s == "")
  | .objv => true

/-- JavaScript `ToNumber` on a `JsonValue`, as applied by `Math.min` and
`Math.max`: `undefined` and plain objects give NaN, `null` and `false` give 0,
`true` gives 1, a string its carried numeric value. -/
def toNumber : JsonValue → JsNumber
  | .absent => .nan
  | .nullv => .num 0
  | .boolv true => .num 1
  | .boolv false => .num 0
  | .numv q => .num q
  | .strv _ (some q) => .num q
  | .strv _ none => .nan
  | .objv => .nan

/-- The `MemoryDecision` record of `memory-evaluator.ts`: an action, a reason
and a confidence.  The TypeScript type promises a string and a number, but
the code assigns `result.reason` and the clamped `result.confidence` without
validating them, so a reason can be any truthy JSON value and a confidence
can be NaN. -/
structure MemoryDecision where
  action : String
  reason : JsonValue
  confidence : JsNumber
deriving DecidableEq, Repr

/-- Outcome of `JSON.parse` on the model's reply, keeping the fields the code
reads.  The action is kept as a string: a non-string action fails the
`includes` check exactly as an invalid string does; `reason` and `confidence`
are arbitrary JSON values. -/
structure ParsedReply where
  action : String
  reason : JsonValue
  confidence : JsonValue
deriving DecidableEq, Repr

/-- Outcome of the `generateChatResponse` call inside `evaluateMemoryValue`:
the call throws, or it replies with content whose JSON parse fails (`none`)
or yields a `ParsedReply`. -/
inductive GenOutcome where
  | throws : GenOutcome
  | replies : Option ParsedReply → GenOutcome
deriving DecidableEq, Repr

/-- ASCII lowercasing of a string, modelling `toLowerCase`. -/
def toLowerStr (s : String) : String := String.mk (s.data.map Char.toLower)

/-- Whether `pat` starts the list `hay`. -/
def startsWithList : List Char → List Char → Bool
  | [], _ => true
  | _ :: _, [] => false
  | p :: ps, h :: hs => p == h && startsWithList ps hs

/-- Whether `pat` occurs contiguously inside `hay`. -/
def containsList : List Char → List Char → Bool
  | [], pat => pat.isEmpty
  | h :: t, pat => startsWithList pat (h :: t) || containsList t pat

/-- Whether `pat` is a substring of `hay`: the effect of testing a regex that
is an alternation of literal substrings against `hay`, one literal at a time. -/
def containsSubstring (hay pat : String) : Bool := containsList hay.data pat.data

/-- The literal alternatives of the `autoSavePatterns` regexes. -/
def autoSavePatterns : List String :=
  ["how to", "tutorial", "steps", "guide", "instructions",
   "solve", "solution", "fix", "resolve",
   "learn", "understand", "explain",
   "important", "crucial", "critical", "key",
   "remember", "note", "tip", "advice"]

/-- The literal alternatives of the first two `skipPatterns` regexes. -/
def skipLiteralPatterns : List String :=
  ["hello", "hi", "hey", "thanks", "thank you", "bye", "goodbye",
   "yes", "no", "ok", "okay", "sure", "fine"]

/-- The literal alternatives of the `promptPatterns` regexes. -/
def promptPatterns : List String :=
  ["personal", "private", "sensitive", "confidential",
   "password", "secret", "key", "token",
   "my", "mine", "yourself", "your"]

/-- A character `.` does not match in the third skip regex: a line
terminator (LF, CR, LS, PS). -/
def isLineTerm (c : Char) : Bool :=
  c == '\n' || c == '\r' || c.val == 0x2028 || c.val == 0x2029

/-- The third skip regex `^.{1,20}$`: the whole string is 1 to 20 characters,
none of them a line terminator. -/
def shortResponseMatch (s : String) : Bool :=
  decide (1 ≤ s.length) && decide (s.length ≤ 20) && s.data.all (fun c => !isLineTerm c)

/-- The string the fallback regexes are tested against:
`queryLower + " " + responseLower`. -/
def combinedLower (userQuery aiResponse : String) : String :=
  toLowerStr userQuery ++ " " ++ toLowerStr aiResponse

/-- Function `fallbackEvaluation` of `memory-evaluator.ts` (lines 70-142): the
regex-based decision over the lowercased query and response. -/
def fallbackEvaluation (userQuery aiResponse context : String) : MemoryDecision :=
  if autoSavePatterns.any
      (fun p => containsSubstring (combinedLower userQuery aiResponse) p) then
    ⟨"auto_save", .strv "Contains valuable learning or problem-solving content" none,
      .num (8 / 10)⟩
  else if skipLiteralPatterns.any
        (fun p => containsSubstring (combinedLower userQuery aiResponse) p)
      || shortResponseMatch (combinedLower userQuery aiResponse) then
    ⟨"skip", .strv "Basic conversation or very short response" none, .num (9 / 10)⟩
  else if promptPatterns.any
      (fun p => containsSubstring (combinedLower userQuery aiResponse) p) then
    ⟨"prompt_user", .strv "May contain personal or sensitive information" none,
      .num (7 / 10)⟩
  else if decide (100 < aiResponse.length) && decide (0 < context.length) then
    ⟨"prompt_user",
      .strv "Substantial response with external context - user should decide" none,
      .num (6 / 10)⟩
  else
    ⟨"skip", .strv "No clear value indicators found" none, .num (5 / 10)⟩

/-- The actions `evaluateMemoryValue` accepts from the model. -/
def validActions : List String := ["auto_save", "prompt_user", "skip"]

/-- JavaScript `result.reason || "No reason provided"`: a falsy reason is
replaced by the default string, a truthy reason of any type passes through. -/
def reasonOrDefault (r : JsonValue) : JsonValue :=
  if truthy r then r else .strv "No reason provided" none

/-- The confidence pipeline `Math.max(0, Math.min(1, result.confidence ||
0.5))`: a falsy confidence defaults to `0.5`; the survivor is coerced to a
number by `Math.min`/`Math.max` — yielding NaN when it is not numeric — and a
numeric value is clamped into `[0, 1]`. -/
def clampConfidence (conf : JsonValue) : JsNumber :=
  match toNumber (if truthy conf then conf else .numv (5 / 10)) with
  | .nan => .nan
  | .num q => .num (max 0 (min 1 q))

/-- A confidence value the clamp maps into `[0, 1]`: falsy (so defaulted to
`0.5`) or coercing to an actual number rather than NaN. -/
def confidenceSafe (v : JsonValue) : Bool :=
  !truthy v ||
    match toNumber v with
    | .num _ => true
    | .nan => false

/-- A reason value the default pipeline turns into a non-empty string: a
string, or falsy (so replaced by the default). -/
def reasonSafe : JsonValue → Bool
  | .strv _ _ => true
  | v => !truthy v

/-- Function `evaluateMemoryValue` of `memory-evaluator.ts` (lines 9-68): a thrown
generation call, an unparsable reply, or a reply with an invalid action all
fall back to `fallbackEvaluation`; a valid reply is passed through with the
reason defaulted when falsy and the confidence put through the clamp
pipeline. -/
def evaluateMemoryValue (userQuery aiResponse context : String)
    (gen : GenOutcome) : MemoryDecision :=
  match gen with
  | .throws => fallbackEvaluation userQuery aiResponse context
  | .replies none => fallbackEvaluation userQuery aiResponse context
  | .replies (some result) =>
    if validActions.contains result.action then
      ⟨result.action, reasonOrDefault result.reason, clampConfidence result.confidence⟩
    else fallbackEvaluation userQuery aiResponse context

end MemoryEval

namespace Milvus

/-- A record of `MilvusService.inMemoryVectors`. -/
structure StoredVector where
  id : String
  query : String
  response : String
  embedding : List ℝ
  sources : List String
  timestamp : Nat

/-- An entry of the fallback search result: the spread of a stored vector
together with its `similarity` field. -/
structure ScoredVector where
  vec : StoredVector
  similarity : ℝ

/-- Embedding of `a.reduce((sum, val) => sum + val * val, 0)`: the sum of squares of a
vector. -/
noncomputable def sumOfSquares (v : List ℝ) : ℝ := v.foldl (fun s x => s + x * x) 0

/-- Value `Math.sqrt` of the sum of squares: the magnitude computed inside
`cosineSimilarity`. -/
noncomputable def magnitude (v : List ℝ) : ℝ := Real.sqrt (sumOfSquares v)

/-- Embedding of `a.reduce((sum, val, i) => sum + val * b[i], 0)` for vectors of equal
length: the dot product. -/
noncomputable def dotProduct (a b : List ℝ) : ℝ :=
  (a.zip b).foldl (fun s p => s + p.1 * p.2) 0

/-- Function `MilvusService.cosineSimilarity` (milvus.ts lines 300-305): `0` when
either magnitude is zero, the normalized dot product otherwise. -/
noncomputable def cosineSimilarity (a b : List ℝ) : ℝ :=
  if magnitude a = 0 ∨ magnitude b = 0 then 0
  else dotProduct a b / (magnitude a * magnitude b)

/-- The in-memory fallback branch of `MilvusService.searchSimilar` (milvus.ts
lines 214-222): score every stored vector against the query embedding, keep
those at or above the threshold, sort by descending similarity (the stable
sort of `Array.prototype.sort` under the comparator `b.similarity -
a.similarity`), and truncate to `lim` entries. -/
noncomputable def searchSimilarFallback (inMemoryVectors : List StoredVector)
    (queryEmbedding : List ℝ) (threshold : ℝ) (lim : Nat) : List ScoredVector :=
  ((((inMemoryVectors.map fun v =>
        (⟨v, cosineSimilarity queryEmbedding v.embedding⟩ : ScoredVector))).filter
      (fun r => decide (threshold ≤ r.similarity))).mergeSort
      (fun a b => decide (b.similarity ≤ a.similarity))).take lim

/-- The scored-and-filtered list the fallback search sorts and truncates. -/
noncomputable def scoredAboveThreshold (inMemoryVectors : List StoredVector)
    (queryEmbedding : List ℝ) (threshold : ℝ) : List ScoredVector :=
  ((inMemoryVectors.map fun v =>
      (⟨v, cosineSimilarity queryEmbedding v.embedding⟩ : ScoredVector))).filter
    (fun r => decide (threshold ≤ r.similarity))

end Milvus

namespace Pinecone

/-- Constant `PineconeService.maxRetries`. -/
def maxRetries : Nat := 3

/-- How one invocation of `connect` ends: a normal return or a thrown error. -/
inductive ConnectOutcome where
  | returned : ConnectOutcome
  | threw : String → ConnectOutcome
deriving DecidableEq, Repr

/-- State and effects after one invocation of `connect`: the outcome, the
`isConnected` and `connectionRetries` fields, and the backoff waits performed,
in milliseconds, in order. -/
structure ConnectResult where
  outcome : ConnectOutcome
  isConnected : Bool
  connectionRetries : Nat
  sleepsMs : List Nat
deriving DecidableEq, Repr

/-- The `while (this.connectionRetries < this.maxRetries)` loop of
`PineconeService.connect`, with `fuel = maxRetries - connectionRetries`
iterations remaining and `oracle n` the success of the attempt made with
`connectionRetries = n`.  A successful attempt connects and resets the
counter; a failed attempt increments it, throws once it reaches `maxRetries`
(setting `isConnected` to false), and otherwise waits `2 ^ n * 1000`
milliseconds after the `n`-th failure before retrying. -/
def connectGo (oracle : Nat → Bool) :
    Nat → Nat → Bool → List Nat → ConnectResult
  | 0, retries, conn, sleeps => ⟨.returned, conn, retries, sleeps⟩
  | fuel + 1, retries, conn, sleeps =>
    if oracle retries then ⟨.returned, true, 0, sleeps⟩
    else
      if maxRetries ≤ retries + 1 then
        ⟨.threw "Failed to connect to Pinecone after 3 attempts", false, retries + 1, sleeps⟩
      else
        connectGo oracle fuel (retries + 1) conn (sleeps ++ [2 ^ (retries + 1) * 1000])

/-- Function `PineconeService.connect` (part_008 lines 43-72): throws when no client is
configured, and otherwise runs the retry loop starting from the current
`connectionRetries` value. -/
def connect (oracle : Nat → Bool) (clientConfigured : Bool)
    (retries0 : Nat) (conn0 : Bool) : ConnectResult :=
  if clientConfigured then
    connectGo oracle (maxRetries - retries0) retries0 conn0 []
  else
    ⟨.threw "Pinecone API key must be configured. Please set PINECONE_API_KEY environment variable.",
      conn0, retries0, []⟩

end Pinecone

open Routes MemoryEval Milvus Pinecone

/-- Claim C3 counterexample: after a successful DELETE `/api/clear-database`
(status 200), a stored `VectorResponse` record survives — the handler clears
only the in-memory chat, so the vector records are not deleted wholesale. -/
theorem clear_database_counterexample :
    (clearDatabaseHandler [] [⟨"v1", "q", "r", [], [], 0⟩]).status = 200 ∧
    (clearDatabaseHandler [] [⟨"v1", "q", "r", [], [], 0⟩]).store ≠ [] := by
  exact ⟨rfl, by decide⟩

/-- Claim C3 (amended): after every successful DELETE `/api/clear-database`
request the in-memory chat history is empty, but the stored `VectorResponse`
records are left untouched — the current handler clears only the chat; the
wholesale vector deletion exists only in the earlier iteration that called
`clearCollection`. -/
theorem clear_database_clears_chat_only (chat : List ChatMessage)
    (store : List VectorResponse) :
    (clearDatabaseHandler chat store).status = 200 ∧
    (clearDatabaseHandler chat store).chat = [] ∧
    (clearDatabaseHandler chat store).store = store :=
  ⟨rfl, rfl, rfl⟩

/-- Claim C7 counterexample: an invocation of `connect` that starts with
`connectionRetries` already at `maxRetries` (the state a previous failed
invocation leaves behind, since the counter is only reset on success) returns
normally without attempting anything, leaving the service unconnected — the
claim that every invocation either connects or throws is false. -/
theorem connect_exhausted_counterexample :
    (Pinecone.connect (fun _ => true) true Pinecone.maxRetries false).outcome =
      ConnectOutcome.returned ∧
    (Pinecone.connect (fun _ => true) true Pinecone.maxRetries false).isConnected = false :=
  ⟨rfl, rfl⟩

/-- Claim C7 (amended): an invocation of `connect` on a configured client
starting from a fresh `connectionRetries = 0` makes at most `maxRetries = 3`
attempts, waits `2 ^ n * 1000` milliseconds after the `n`-th failed attempt
(for n = 1, 2), and either connects (resetting the counter) or throws with
`isConnected` false; but the counter is not reset on failure, so only
invocations entered with `connectionRetries < maxRetries` enjoy this. -/
theorem connect_retry_backoff_spec (oracle : Nat → Bool) :
    Pinecone.connect oracle true 0 false =
      if oracle 0 then ⟨.returned, true, 0, []⟩
      else if oracle 1 then ⟨.returned, true, 0, [2000]⟩
      else if oracle 2 then ⟨.returned, true, 0, [2000, 4000]⟩
      else ⟨.threw "Failed to connect to Pinecone after 3 attempts", false, 3, [2000, 4000]⟩ := by
  cases h0 : oracle 0 <;> cases h1 : oracle 1 <;> cases h2 : oracle 2 <;>
    simp [Pinecone.connect, Pinecone.connectGo, Pinecone.maxRetries, h0, h1, h2]

/-- Claim C5: a POST `/api/messages` execution with `saveToVector = true`
whose fire-and-forget vector insert fails still stores the assistant message
with `savedToVector = true`, answers 200, and leaves the vector store without
the new record — the flag and the store disagree. -/
theorem post_saved_flag_store_divergence :
    ((postMessagesHandler (.str "what is rag") true
        ⟨"uid-u", "uid-a", "uid-v", 7, some [], some [],
          ⟨some "gpt-4o", some 1, some 1024, some "be helpful"⟩,
          some ⟨"generated reply", []⟩, some [], false⟩ [] []).chat.map
        fun m => (m.role, m.savedToVector)) =
      [(Role.user, none), (Role.assistant, some true)] ∧
    (postMessagesHandler (.str "what is rag") true
        ⟨"uid-u", "uid-a", "uid-v", 7, some [], some [],
          ⟨some "gpt-4o", some 1, some 1024, some "be helpful"⟩,
          some ⟨"generated reply", []⟩, some [], false⟩ [] []).store = [] ∧
    (postMessagesHandler (.str "what is rag") true
        ⟨"uid-u", "uid-a", "uid-v", 7, some [], some [],
          ⟨some "gpt-4o", some 1, some 1024, some "be helpful"⟩,
          some ⟨"generated reply", []⟩, some [], false⟩ [] []).status = 200 := by
  refine ⟨?_, ?_, ?_⟩ <;> rfl

/-- Claim C8: a POST `/api/messages` whose `content` is absent, a truthy
non-string, or the empty string is rejected with status 400, and the chat
history, the vector store and the list of external calls are untouched. -/
theorem post_invalid_content_rejected (c : ReqContent) (save : Bool)
    (env : PostEnv) (chat : List ChatMessage) (store : List VectorResponse)
    (h : c = .absent ∨ c = .nonStringTruthy ∨ c = .str "") :
    (postMessagesHandler c save env chat store).status = 400 ∧
    (postMessagesHandler c save env chat store).chat = chat ∧
    (postMessagesHandler c save env chat store).store = store ∧
    (postMessagesHandler c save env chat store).calls = [] := by
  rcases h with h | h | h <;> subst h <;> exact ⟨rfl, rfl, rfl, rfl⟩

/-- Claim C8 witness: the rejection contract at a concrete request with no
content field. -/
theorem post_invalid_content_rejected_witness :
    (postMessagesHandler .absent false
        ⟨"u", "a", "v", 0, none, none, ⟨none, none, none, none⟩, none, none, true⟩
        [] []).status = 400 ∧
    (postMessagesHandler .absent false
        ⟨"u", "a", "v", 0, none, none, ⟨none, none, none, none⟩, none, none, true⟩
        [] []).chat = [] ∧
    (postMessagesHandler .absent false
        ⟨"u", "a", "v", 0, none, none, ⟨none, none, none, none⟩, none, none, true⟩
        [] []).store = [] ∧
    (postMessagesHandler .absent false
        ⟨"u", "a", "v", 0, none, none, ⟨none, none, none, none⟩, none, none, true⟩
        [] []).calls = [] :=
  post_invalid_content_rejected .absent false
    ⟨"u", "a", "v", 0, none, none, ⟨none, none, none, none⟩, none, none, true⟩
    [] [] (Or.inl rfl)

/-- Claim C1: a POST `/api/messages` with non-empty string content, all four
settings configured and a successful generation call answers 200 with a user
message carrying the request content and an assistant message carrying the
generated content, both appended — user first, assistant second — to the
in-memory chat history. -/
theorem post_valid_message_contract (s : String) (save : Bool) (env : PostEnv)
    (chat : List ChatMessage) (store : List VectorResponse) (g : GenResponse)
    (hs : s ≠ "")
    (hmodel : falsyStr env.settings.model = false)
    (htemp : env.settings.temperature.isNone = false)
    (htok : falsyInt env.settings.maxTokens = false)
    (hprompt : falsyStr env.settings.systemPrompt = false)
    (hgen : env.gen = some g) :
    ∃ u a : ChatMessage,
      (postMessagesHandler (.str s) save env chat store).status = 200 ∧
      (postMessagesHandler (.str s) save env chat store).body = .ok u a g.sources ∧
      u.role = .user ∧ u.content = s ∧
      a.role = .assistant ∧ a.content = g.content ∧
      (postMessagesHandler (.str s) save env chat store).chat = chat ++ [u, a] := by
  refine ⟨⟨env.uidUser, s, .user, env.now, [], none⟩,
    ⟨env.uidAssistant, g.content, .assistant, env.now, g.sources, some save⟩,
    ?_, ?_, rfl, rfl, rfl, rfl, ?_⟩ <;>
    simp [postMessagesHandler, hs, hmodel, htemp, htok, hprompt, hgen]

/-- Claim C1 witness: the success contract at a concrete request, settings
record and generation reply. -/
theorem post_valid_message_contract_witness :
    ∃ u a : ChatMessage,
      (postMessagesHandler (.str "hello rag") false
          ⟨"u1", "a1", "v1", 3, none, none, ⟨some "gpt-4o", some 1, some 2048, some "sys"⟩,
            some ⟨"the reply", ["doc"]⟩, none, true⟩ [] []).status = 200 ∧
      (postMessagesHandler (.str "hello rag") false
          ⟨"u1", "a1", "v1", 3, none, none, ⟨some "gpt-4o", some 1, some 2048, some "sys"⟩,
            some ⟨"the reply", ["doc"]⟩, none, true⟩ [] []).body =
        .ok u a (GenResponse.sources ⟨"the reply", ["doc"]⟩) ∧
      u.role = .user ∧ u.content = "hello rag" ∧
      a.role = .assistant ∧ a.content = GenResponse.content ⟨"the reply", ["doc"]⟩ ∧
      (postMessagesHandler (.str "hello rag") false
          ⟨"u1", "a1", "v1", 3, none, none, ⟨some "gpt-4o", some 1, some 2048, some "sys"⟩,
            some ⟨"the reply", ["doc"]⟩, none, true⟩ [] []).chat = [] ++ [u, a] :=
  post_valid_message_contract "hello rag" false
    ⟨"u1", "a1", "v1", 3, none, none, ⟨some "gpt-4o", some 1, some 2048, some "sys"⟩,
      some ⟨"the reply", ["doc"]⟩, none, true⟩ [] [] ⟨"the reply", ["doc"]⟩
    (by decide) rfl rfl rfl rfl rfl

/-- Helper: `fallbackEvaluation` always produces one of the three actions, a
non-empty string reason and a numeric confidence within `[0, 1]`. -/
theorem fallbackEvaluation_wellformed (q r c : String) :
    ((fallbackEvaluation q r c).action = "auto_save" ∨
      (fallbackEvaluation q r c).action = "prompt_user" ∨
      (fallbackEvaluation q r c).action = "skip") ∧
    (∃ s : String, ∃ pn : Option ℚ,
      (fallbackEvaluation q r c).reason = JsonValue.strv s pn ∧ s ≠ "") ∧
    (∃ qc : ℚ, (fallbackEvaluation q r c).confidence = JsNumber.num qc ∧
      0 ≤ qc ∧ qc ≤ 1) := by
  unfold fallbackEvaluation
  repeat' split
  all_goals
    exact ⟨by decide, ⟨_, _, rfl, by decide⟩, ⟨_, rfl, by norm_num, by norm_num⟩⟩

/-- Helper: a falsy reason is replaced by the default string, a string reason
passes through — either way a non-empty string results. -/
theorem reasonOrDefault_safe (v : JsonValue) (h : reasonSafe v = true) :
    ∃ s : String, ∃ pn : Option ℚ,
      reasonOrDefault v = JsonValue.strv s pn ∧ s ≠ "" := by
  unfold reasonOrDefault
  cases v with
  | strv s pn =>
    by_cases hs : s = ""
    · subst hs
      rw [if_neg (by simp [truthy])]
      exact ⟨_, _, rfl, by decide⟩
    · rw [if_pos (by simp [truthy, hs])]
      exact ⟨s, pn, rfl, hs⟩
  | absent =>
    rw [if_neg (by simp [truthy])]
    exact ⟨_, _, rfl, by decide⟩
  | nullv =>
    rw [if_neg (by simp [truthy])]
    exact ⟨_, _, rfl, by decide⟩
  | boolv b =>
    have hb : b = false := by
      cases b
      · rfl
      · exact absurd h (by decide)
    subst hb
    rw [if_neg (by simp [truthy])]
    exact ⟨_, _, rfl, by decide⟩
  | numv q =>
    have hq : truthy (JsonValue.numv q) = false := by
      simp only [reasonSafe] at h
      simpa using h
    rw [if_neg (by simp [hq])]
    exact ⟨_, _, rfl, by decide⟩
  | objv => exact absurd h (by decide)

/-- Helper: a safe confidence value comes out of the clamp pipeline as a
number in `[0, 1]`. -/
theorem clampConfidence_safe (v : JsonValue) (h : confidenceSafe v = true) :
    ∃ qc : ℚ, clampConfidence v = JsNumber.num qc ∧ 0 ≤ qc ∧ qc ≤ 1 := by
  unfold clampConfidence
  by_cases ht : truthy v = true
  · rw [if_pos ht]
    have hc : (match toNumber v with
        | JsNumber.num _ => true
        | JsNumber.nan => false) = true := by
      unfold confidenceSafe at h
      rw [ht] at h
      simpa using h
    cases htn : toNumber v with
    | nan => rw [htn] at hc; exact absurd hc (by decide)
    | num qv =>
      exact ⟨max 0 (min 1 qv), rfl, le_max_left 0 _,
        max_le (by norm_num) (min_le_left 1 _)⟩
  · rw [if_neg ht]
    exact ⟨max 0 (min 1 (5 / 10)), rfl, le_max_left 0 _,
      max_le (by norm_num) (min_le_left 1 _)⟩

/-- Claim C9 counterexample: a parseable reply with a valid action, a truthy
non-string reason (`42`) and a truthy non-numeric confidence (`"high"`)
yields a decision whose confidence is NaN — outside `[0, 1]` — and whose
reason is not a string, against the claim's quantification over every
possible model reply. -/
theorem memory_decision_wellformed_counterexample :
    (evaluateMemoryValue "a" "b" "c"
      (.replies (some ⟨"auto_save", .numv 42, .strv "high" none⟩))).confidence =
      JsNumber.nan ∧
    (evaluateMemoryValue "a" "b" "c"
      (.replies (some ⟨"auto_save", .numv 42, .strv "high" none⟩))).reason =
      JsonValue.numv 42 := by
  exact ⟨by decide, by decide⟩

/-- Claim C9 (amended): every decision of `fallbackEvaluation` has an action
among auto_save, prompt_user and skip, a non-empty string reason and a
numeric confidence clamped into `[0, 1]`; the same holds of
`evaluateMemoryValue` provided every parsed reply the model call yields has a
reason that is a string or falsy, and a confidence that is falsy or coerces
to a number — a truthy non-numeric confidence instead yields NaN, and a
truthy non-string reason passes through un-defaulted. -/
theorem memory_decision_wellformed (q r c : String) (gen : GenOutcome)
    (hsafe : ∀ p : ParsedReply, gen = GenOutcome.replies (some p) →
      confidenceSafe p.confidence = true ∧ reasonSafe p.reason = true) :
    ((evaluateMemoryValue q r c gen).action = "auto_save" ∨
      (evaluateMemoryValue q r c gen).action = "prompt_user" ∨
      (evaluateMemoryValue q r c gen).action = "skip") ∧
    (∃ s : String, ∃ pn : Option ℚ,
      (evaluateMemoryValue q r c gen).reason = JsonValue.strv s pn ∧ s ≠ "") ∧
    (∃ qc : ℚ, (evaluateMemoryValue q r c gen).confidence = JsNumber.num qc ∧
      0 ≤ qc ∧ qc ≤ 1) := by
  cases gen with
  | throws => exact fallbackEvaluation_wellformed q r c
  | replies p? =>
    cases p? with
    | none => exact fallbackEvaluation_wellformed q r c
    | some result =>
      obtain ⟨hconf, hreason⟩ := hsafe result rfl
      simp only [evaluateMemoryValue]
      split
      · next hact =>
        simp only [validActions] at hact
        simp only [List.contains_cons, List.contains_nil, Bool.or_eq_true,
          beq_iff_eq, Bool.or_false] at hact
        exact ⟨by simpa using hact, reasonOrDefault_safe result.reason hreason,
          clampConfidence_safe result.confidence hconf⟩
      · exact fallbackEvaluation_wellformed q r c

/-- Claim C9 witness: the amended invariant at a concrete reply with a valid
action, a string reason and a numeric confidence above the clamp. -/
theorem memory_decision_wellformed_witness :
    ((evaluateMemoryValue "a" "b" "c"
        (.replies (some ⟨"auto_save", .strv "r" none, .numv 2⟩))).action = "auto_save" ∨
      (evaluateMemoryValue "a" "b" "c"
        (.replies (some ⟨"auto_save", .strv "r" none, .numv 2⟩))).action = "prompt_user" ∨
      (evaluateMemoryValue "a" "b" "c"
        (.replies (some ⟨"auto_save", .strv "r" none, .numv 2⟩))).action = "skip") ∧
    (∃ s : String, ∃ pn : Option ℚ,
      (evaluateMemoryValue "a" "b" "c"
        (.replies (some ⟨"auto_save", .strv "r" none, .numv 2⟩))).reason =
        JsonValue.strv s pn ∧ s ≠ "") ∧
    (∃ qc : ℚ,
      (evaluateMemoryValue "a" "b" "c"
        (.replies (some ⟨"auto_save", .strv "r" none, .numv 2⟩))).confidence =
        JsNumber.num qc ∧ 0 ≤ qc ∧ qc ≤ 1) :=
  memory_decision_wellformed "a" "b" "c"
    (.replies (some ⟨"auto_save", .strv "r" none, .numv 2⟩))
    (by
      rintro p hp
      injection hp with h1
      injection h1 with h2
      subst h2
      exact ⟨by decide, by decide⟩)

/-- Claim C6: whenever the generation call throws, or its reply fails to
parse as JSON, or the parsed action is not one of the three valid actions,
`evaluateMemoryValue` returns exactly the decision of the regex-based
`fallbackEvaluation` on the same inputs, without throwing. -/
theorem evaluate_memory_fallback_on_failure (q r c : String) :
    evaluateMemoryValue q r c .throws = fallbackEvaluation q r c ∧
    evaluateMemoryValue q r c (.replies none) = fallbackEvaluation q r c ∧
    ∀ p : ParsedReply, validActions.contains p.action = false →
      evaluateMemoryValue q r c (.replies (some p)) = fallbackEvaluation q r c := by
  refine ⟨rfl, rfl, fun p hp => ?_⟩
  simp only [evaluateMemoryValue]
  rw [hp]
  simp

/-- Helper: folding the squares from `s` equals `s` plus the sum of squares. -/
theorem sumOfSquares_shift (v : List ℝ) (s : ℝ) :
    v.foldl (fun a x => a + x * x) s = s + sumOfSquares v := by
  induction v generalizing s with
  | nil => simp [sumOfSquares]
  | cons x t ih =>
    simp only [sumOfSquares, List.foldl_cons]
    rw [ih (s + x * x), ih (0 + x * x)]
    ring

/-- Helper: the sum of squares of `x :: t`. -/
theorem sumOfSquares_cons (x : ℝ) (t : List ℝ) :
    sumOfSquares (x :: t) = x * x + sumOfSquares t := by
  simp only [sumOfSquares, List.foldl_cons]
  rw [sumOfSquares_shift]
  ring_nf
  rw [sumOfSquares]

/-- Helper: a sum of squares is nonnegative. -/
theorem sumOfSquares_nonneg (v : List ℝ) : 0 ≤ sumOfSquares v := by
  induction v with
  | nil => simp [sumOfSquares]
  | cons x t ih =>
    rw [sumOfSquares_cons]
    exact add_nonneg (mul_self_nonneg x) ih

/-- Helper: a sum of squares vanishes exactly when every entry is zero. -/
theorem sumOfSquares_eq_zero_iff (v : List ℝ) :
    sumOfSquares v = 0 ↔ ∀ x ∈ v, x = 0 := by
  induction v with
  | nil => simp [sumOfSquares]
  | cons x t ih =>
    rw [sumOfSquares_cons,
      add_eq_zero_iff_of_nonneg (mul_self_nonneg x) (sumOfSquares_nonneg t)]
    simp [mul_self_eq_zero, ih]

/-- Helper: the magnitude vanishes exactly when every entry is zero. -/
theorem magnitude_eq_zero_iff (v : List ℝ) :
    magnitude v = 0 ↔ ∀ x ∈ v, x = 0 := by
  unfold magnitude
  rw [Real.sqrt_eq_zero (sumOfSquares_nonneg v), sumOfSquares_eq_zero_iff]

/-- Claim C10: `cosineSimilarity` is total on equal-length vectors — it
returns 0 when either magnitude is zero, otherwise the dot product divided by
the product of magnitudes, and in that case the divisor is nonzero; the zero
guard fires exactly on all-zero vectors. -/
theorem cosine_similarity_total (a b : List ℝ) ( _hlen : a.length = b.length) :
    (magnitude a = 0 ∨ magnitude b = 0 → cosineSimilarity a b = 0) ∧
    (magnitude a ≠ 0 → magnitude b ≠ 0 →
      cosineSimilarity a b = dotProduct a b / (magnitude a * magnitude b) ∧
      magnitude a * magnitude b ≠ 0) ∧
    (magnitude a = 0 ↔ ∀ x ∈ a, x = 0) := by
  refine ⟨fun h => ?_, fun ha hb => ⟨?_, mul_ne_zero ha hb⟩, magnitude_eq_zero_iff a⟩
  · unfold cosineSimilarity
    rw [if_pos h]
  · unfold cosineSimilarity
    rw [if_neg (not_or.mpr ⟨ha, hb⟩)]

/-- Claim C10 witness: the zero branch on the zero vector and the quotient
branch on the unit vector. -/
theorem cosine_similarity_total_witness :
    cosineSimilarity [(0 : ℝ)] [0] = 0 ∧
    cosineSimilarity [(1 : ℝ)] [1] =
      dotProduct [(1 : ℝ)] [1] / (magnitude [(1 : ℝ)] * magnitude [(1 : ℝ)]) := by
  have h0 : magnitude [(0 : ℝ)] = 0 := by
    simp [magnitude, sumOfSquares]
  have h1 : magnitude [(1 : ℝ)] ≠ 0 := by
    simp [magnitude, sumOfSquares]
  exact ⟨(cosine_similarity_total [0] [0] rfl).1 (Or.inl h0),
    ((cosine_similarity_total [1] [1] rfl).2.1 h1 h1).1⟩

/-- Helper: the fallback search is the truncated stable descending sort of
the scored-and-filtered stored vectors. -/
theorem searchSimilarFallback_eq (vs : List StoredVector) (q : List ℝ) (t : ℝ)
    (lim : Nat) :
    searchSimilarFallback vs q t lim =
      ((scoredAboveThreshold vs q t).mergeSort
        (fun a b => decide (b.similarity ≤ a.similarity))).take lim := rfl

/-- Claim C4: the in-memory fallback search returns at most `lim` entries, in
non-increasing similarity order; every returned entry is a stored vector
scored with `cosineSimilarity` against the query embedding and lies at or
above the threshold; and when no truncation happens the result is exactly
(a permutation of) the scored entries above the threshold. -/
theorem search_similar_fallback_spec (vs : List StoredVector) (q : List ℝ)
    (t : ℝ) (lim : Nat) :
    (searchSimilarFallback vs q t lim).length ≤ lim ∧
    List.Pairwise (fun a b : ScoredVector => b.similarity ≤ a.similarity)
      (searchSimilarFallback vs q t lim) ∧
    (∀ r ∈ searchSimilarFallback vs q t lim,
      r.vec ∈ vs ∧ r.similarity = cosineSimilarity q r.vec.embedding ∧
      t ≤ r.similarity) ∧
    ((scoredAboveThreshold vs q t).length ≤ lim →
      List.Perm (searchSimilarFallback vs q t lim) (scoredAboveThreshold vs q t)) := by
  have hperm := List.mergeSort_perm (scoredAboveThreshold vs q t)
    (fun a b : ScoredVector => decide (b.similarity ≤ a.similarity))
  have htrans : ∀ a b c : ScoredVector,
      decide (b.similarity ≤ a.similarity) = true →
      decide (c.similarity ≤ b.similarity) = true →
      decide (c.similarity ≤ a.similarity) = true := by
    intro a b c hab hbc
    simp only [decide_eq_true_eq] at *
    exact le_trans hbc hab
  have htotal : ∀ a b : ScoredVector,
      (decide (b.similarity ≤ a.similarity) ||
        decide (a.similarity ≤ b.similarity)) = true := by
    intro a b
    simp only [Bool.or_eq_true, decide_eq_true_eq]
    exact le_total b.similarity a.similarity
  have hsorted := @List.sorted_mergeSort ScoredVector
    (fun a b => decide (b.similarity ≤ a.similarity)) htrans htotal
    (scoredAboveThreshold vs q t)
  refine ⟨?_, ?_, ?_, ?_⟩
  · rw [searchSimilarFallback_eq]
    exact List.length_take_le _ _
  · rw [searchSimilarFallback_eq]
    exact List.Pairwise.sublist (List.take_sublist _ _)
      (hsorted.imp fun h => of_decide_eq_true h)
  · intro r hr
    rw [searchSimilarFallback_eq] at hr
    have h1 := (List.take_sublist lim _).subset hr
    have h2 := hperm.mem_iff.mp h1
    unfold scoredAboveThreshold at h2
    obtain ⟨hmapmem, hdec⟩ := List.mem_filter.mp h2
    obtain ⟨v, hv, rfl⟩ := List.mem_map.mp hmapmem
    exact ⟨hv, rfl, of_decide_eq_true hdec⟩
  · intro hle
    rw [searchSimilarFallback_eq,
      List.take_of_length_le (by rw [hperm.length_eq]; exact hle)]
    exact hperm

/-- Helper: updating the saved flag does not move the first index holding a
given message id. -/
theorem setSavedFlag_findIdx (idv : String) (b : Bool) (chat : List ChatMessage) :
    (setSavedFlag idv b chat).findIdx (fun x => x.id == idv) =
      chat.findIdx (fun x => x.id == idv) := by
  induction chat with
  | nil => rfl
  | cons m t ih =>
    by_cases hid : m.id = idv
    · simp [setSavedFlag, hid, List.findIdx_cons]
    · simp [setSavedFlag, hid, List.findIdx_cons, ih]

/-- Helper: entries strictly before the first index holding the id are
untouched by the flag update. -/
theorem setSavedFlag_getElem_lt (idv : String) (b : Bool) (chat : List ChatMessage)
    (j : Nat) (hj : j < chat.findIdx (fun x => x.id == idv)) :
    (setSavedFlag idv b chat)[j]? = chat[j]? := by
  induction chat generalizing j with
  | nil => rfl
  | cons m t ih =>
    by_cases hid : m.id = idv
    · simp [List.findIdx_cons, hid] at hj
    · cases j with
      | zero => simp [setSavedFlag, hid]
      | succ k =>
        have hk : k < t.findIdx (fun x => x.id == idv) := by
          have hbeq : (m.id == idv) = false := by simpa using hid
          simp only [List.findIdx_cons, hbeq, cond_false] at hj
          omega
        simp [setSavedFlag, hid, ih k hk]

/-- Claim C2: a PATCH `/api/messages/:id/vector-save` with `saveToVector`
true on an existing assistant message immediately preceded by a user message
makes exactly one upsert call, with the preceding user message's content as
query and the assistant message's content as response (given the embedding
call succeeds); on any other existing message — user role, first in the
history, or an assistant message not preceded by a user message — no upsert
call is made. -/
theorem patch_vector_save_upsert (idv : String) (env : PatchEnv)
    (chat : List ChatMessage) (m : ChatMessage)
    (hfind : chat.find? (fun x => x.id == idv) = some m) :
    (∀ u : ChatMessage, ∀ e : List ℚ, m.role = Role.assistant →
      0 < chat.findIdx (fun x => x.id == idv) →
      chat[chat.findIdx (fun x => x.id == idv) - 1]? = some u →
      u.role = Role.user →
      env.embedOutcome = some e →
      insertCalls (patchVectorSaveHandler idv true env chat).calls =
        [ExtCall.insert u.content m.content]) ∧
    (¬ (m.role = Role.assistant ∧ 0 < chat.findIdx (fun x => x.id == idv) ∧
        ∃ u : ChatMessage, chat[chat.findIdx (fun x => x.id == idv) - 1]? = some u ∧
          u.role = Role.user) →
      insertCalls (patchVectorSaveHandler idv true env chat).calls = []) := by
  constructor
  · intro u e hrole hpos hprev hurole hembed
    have hij : chat.findIdx (fun x => x.id == idv) - 1 <
        chat.findIdx (fun x => x.id == idv) := Nat.sub_lt hpos Nat.one_pos
    simp only [patchVectorSaveHandler, hfind, if_pos hrole, setSavedFlag_findIdx,
      if_pos hpos, setSavedFlag_getElem_lt idv true chat _ hij, hprev,
      if_pos hurole, hembed, eq_self_iff_true, if_true]
    split <;> rfl
  · intro hneg
    simp only [patchVectorSaveHandler, hfind]
    by_cases hrole : m.role = Role.assistant
    · rw [if_pos hrole]
      simp only [setSavedFlag_findIdx]
      by_cases hpos : 0 < chat.findIdx (fun x => x.id == idv)
      · have hij : chat.findIdx (fun x => x.id == idv) - 1 <
            chat.findIdx (fun x => x.id == idv) := Nat.sub_lt hpos Nat.one_pos
        rw [if_pos hpos, setSavedFlag_getElem_lt idv true chat _ hij]
        cases hprev : chat[chat.findIdx (fun x => x.id == idv) - 1]? with
        | none => rfl
        | some u =>
          by_cases hurole : u.role = Role.user
          · exact absurd ⟨hrole, hpos, u, hprev, hurole⟩ hneg
          · dsimp only
            rw [if_neg hurole]
            rfl
      · rw [if_neg hpos]
        rfl
    · rw [if_neg hrole]
      rfl

/-- Claim C2 witness: the single upsert at a concrete two-message history
whose assistant message follows its user message. -/
theorem patch_vector_save_upsert_witness :
    insertCalls (patchVectorSaveHandler "a1" true ⟨"v1", 2, some [], true, none⟩
        [⟨"u1", "what", Role.user, 0, [], none⟩,
          ⟨"a1", "resp", Role.assistant, 1, [], some false⟩]).calls =
      [ExtCall.insert "what" "resp"] :=
  (patch_vector_save_upsert "a1" ⟨"v1", 2, some [], true, none⟩
      [⟨"u1", "what", Role.user, 0, [], none⟩,
        ⟨"a1", "resp", Role.assistant, 1, [], some false⟩]
      ⟨"a1", "resp", Role.assistant, 1, [], some false⟩ (by decide)).1
    ⟨"u1", "what", Role.user, 0, [], none⟩ [] rfl (by decide) (by decide) rfl rfl
